import Mathlib

/-!
Verification of the genji deferred-generation template renderer.

The Python sources under `src/genji/` are shallowly embedded below:
strings are lists of Unicode scalar characters (`Str`), Python
exceptions are values of an explicit error type, and every fallible
operation returns `Except`.  Definitions follow the source modules:
`filters.py`, `exceptions.py`, `context.py`, `parser.py`, `template.py`.
-/

namespace Genji

/-- Python strings, embedded as lists of Unicode scalar values. -/
abbrev Str := List Char

/-- Shorthand: the character list of a Lean string literal. -/
def lit (s : String) : Str := s.data

/-- ASCII whitespace recognized by Python `str.strip()` / `\s` in regexes
(space, tab, newline, carriage return, vertical tab, form feed). -/
def pyIsSpace (c : Char) : Bool :=
  c = ' ' || c = '\t' || c = '\n' || c = '\x0d' || c = Char.ofNat 11 || c = Char.ofNat 12

/-- Python `str.strip()`: drop leading and trailing whitespace. -/
def pyStrip (s : Str) : Str :=
  ((s.dropWhile pyIsSpace).reverse.dropWhile pyIsSpace).reverse

/-- The scanning loop of Python `str.replace` for a non-empty pattern:
replace every non-overlapping occurrence, left to right.  The fuel
argument only bounds the number of scanned positions so the recursion is
structural; `pyReplace` supplies `s.length + 1`, which every step's
progress (at least one character consumed) keeps sufficient. -/
def pyReplaceGo (p : Char) (ps rep : Str) : Nat → Str → Str
  | 0, s => s
  | fuel + 1, s =>
    match s with
    | [] => []
    | c :: rest =>
      if (p :: ps).isPrefixOf (c :: rest) then
        rep ++ pyReplaceGo p ps rep fuel ((c :: rest).drop (p :: ps).length)
      else
        c :: pyReplaceGo p ps rep fuel rest

/-- Python `str.replace(pat, rep)`: replace every non-overlapping occurrence,
left to right.  An empty pattern inserts the replacement between every
character and at both ends, as in Python. -/
def pyReplace (s : Str) (pat rep : Str) : Str :=
  match pat with
  | [] => rep ++ s.flatMap (fun c => c :: rep)
  | p :: ps => pyReplaceGo p ps rep (s.length + 1) s

/-- ASCII lowercasing of one character (model of Python `str.lower` on the
characters relevant here). -/
def asciiLowerChar (c : Char) : Char :=
  if 'A' ≤ c ∧ c ≤ 'Z' then Char.ofNat (c.toNat + 32) else c

/-- ASCII uppercasing of one character (model of Python `str.upper`). -/
def asciiUpperChar (c : Char) : Char :=
  if 'a' ≤ c ∧ c ≤ 'z' then Char.ofNat (c.toNat - 32) else c

/-- Model of Python `str.lower()`. -/
def pyLower (s : Str) : Str := s.map asciiLowerChar

/-- Model of Python `str.upper()`. -/
def pyUpper (s : Str) : Str := s.map asciiUpperChar

/-- One decimal digit as a character. -/
def digitChar (n : Nat) : Char := Char.ofNat (48 + n)

/-- Digit production for `natDigits`; the fuel only makes the recursion
structural (`n / 10 < n` for `n ≥ 10`), `natDigits` supplies `n + 1`. -/
def natDigitsGo : Nat → Nat → Str
  | 0, _ => []
  | fuel + 1, n =>
    if n < 10 then [digitChar n]
    else natDigitsGo fuel (n / 10) ++ [digitChar (n % 10)]

/-- Decimal digits of a natural number, most significant first
(model of Python's `str(int)` / f-string formatting of an `int`). -/
def natDigits (n : Nat) : Str := natDigitsGo (n + 1) n

/-! ### exceptions.py -/

/-- The exception classes of `exceptions.py`, plus the Python builtins the
embedded code can surface. -/
inductive PyClass where
  | GenjiError
  | TemplateParseError
  | TemplateRenderError
  | BackendError
  | FilterError
  | RuntimeError
  | KeyError
  deriving DecidableEq, Repr

/-- A raised Python exception: its class and its message. -/
structure PyErr where
  cls : PyClass
  msg : Str
  deriving DecidableEq, Repr

/-! ### filters.py -/

/-- JSON escaping of one character, as `json.dumps` with
`ensure_ascii=False` does it: backslash, quote and the named control
characters get two-character escapes, other control characters get
`\u00XX`, everything else passes through. -/
def jsonEscChar (c : Char) : Str :=
  if c = '"' then ['\\', '"']
  else if c = '\\' then ['\\', '\\']
  else if c = '\n' then ['\\', 'n']
  else if c = '\x0d' then ['\\', 'r']
  else if c = '\t' then ['\\', 't']
  else if c = Char.ofNat 8 then ['\\', 'b']
  else if c = Char.ofNat 12 then ['\\', 'f']
  else if c.toNat < 0x20 then
    ['\\', 'u', '0', '0',
     Char.ofNat (if c.toNat / 16 < 10 then 48 + c.toNat / 16 else 87 + c.toNat / 16),
     Char.ofNat (if c.toNat % 16 < 10 then 48 + c.toNat % 16 else 87 + c.toNat % 16)]
  else [c]

/-- `json_filter`: a complete quoted JSON string literal for the input,
i.e. `json.dumps(value, ensure_ascii=False)` on a string
(`filters.py`, `json_filter`).  `json.dumps` cannot fail on a `str`
input, so the embedded filter is total. -/
def json_filter (s : Str) : Str :=
  '"' :: s.flatMap jsonEscChar ++ ['"']

/-- `html_filter`: `html.escape(s, quote=True)`, which replaces `&` first
and then `<`, `>`, `"`, `'` (`filters.py`, `html_filter`). -/
def html_filter (s : Str) : Str :=
  pyReplace
    (pyReplace
      (pyReplace
        (pyReplace
          (pyReplace s (lit "&") (lit "&amp;"))
          (lit "<") (lit "&lt;"))
        (lit ">") (lit "&gt;"))
      (lit "\"") (lit "&quot;"))
    (lit "\x27") (lit "&#x27;")

/-- `xml_filter`: sequential replacement of `& < > " '`
(`filters.py`, `xml_filter`). -/
def xml_filter (s : Str) : Str :=
  pyReplace
    (pyReplace
      (pyReplace
        (pyReplace
          (pyReplace s (lit "&") (lit "&amp;"))
          (lit "<") (lit "&lt;"))
        (lit ">") (lit "&gt;"))
      (lit "\"") (lit "&quot;"))
    (lit "\x27") (lit "&apos;")

/-- The quoting test of `yaml_filter` (`filters.py`, lines 84-95):
`needs_quoting = any([...])` with the eight listed conditions. -/
def yamlNeedsQuoting (s : Str) : Bool :=
  (match s with | c :: _ => c = ' ' || c = '\t' | [] => false)
  || (match s.reverse with | c :: _ => c = ' ' || c = '\t' | [] => false)
  || s.contains '\n'
  || s.contains ':'
  || s.contains '#'
  || (s.contains '-' && (match s with | c :: _ => c = '-' | [] => false))
  || decide (pyLower s ∈ [lit "true", lit "false", lit "null", lit "yes",
       lit "no", lit "on", lit "off"])
  || (match s with | c :: _ => '0' ≤ c && c ≤ '9' | [] => false)

/-- The escaping applied by `yaml_filter` inside the quoted branch
(`filters.py`, lines 99-103): backslash, quote, newline, carriage return
and tab, in that replacement order. -/
def yamlEscape (s : Str) : Str :=
  pyReplace
    (pyReplace
      (pyReplace
        (pyReplace
          (pyReplace s (lit "\\") (lit "\\\\"))
          (lit "\"") (lit "\\\""))
        (lit "\n") (lit "\\n"))
      (lit "\x0d") (lit "\\r"))
    (lit "\t") (lit "\\t")

/-- `yaml_filter` (`filters.py`): quote when `needs_quoting or not s`,
escaping backslash, quote, newline, carriage return and tab; otherwise
return the string unchanged. -/
def yaml_filter (s : Str) : Str :=
  if yamlNeedsQuoting s || s.isEmpty then
    '"' :: yamlEscape s ++ ['"']
  else s

/-- The reserved boolean/null literals of `yaml_filter`. -/
def yamlReserved : List Str :=
  [lit "true", lit "false", lit "null", lit "yes", lit "no", lit "on", lit "off"]

/-- The unquoted-output condition exactly as the specification words it:
the string contains none of leading or trailing whitespace, a newline, a
colon, a hash, a leading digit, a leading hyphen, or a reserved
boolean/null literal (case-insensitive). -/
def yamlClaimPlain (s : Str) : Bool :=
  !(match s.head? with | some c => pyIsSpace c | none => false)
  && !(match s.getLast? with | some c => pyIsSpace c | none => false)
  && !s.contains '\n'
  && !s.contains ':'
  && !s.contains '#'
  && !(match s.head? with | some c => c.isDigit | none => false)
  && !(s.head? = some '-')
  && !(decide (pyLower s ∈ yamlReserved))

/-- The unquoted-output condition as the code forces it to be amended:
additionally the string must be non-empty, and the leading/trailing
whitespace test covers exactly space and tab. -/
def yamlPlainAmended (s : Str) : Bool :=
  !s.isEmpty
  && !(s.head? = some ' ' || s.head? = some '\t')
  && !(s.getLast? = some ' ' || s.getLast? = some '\t')
  && !s.contains '\n'
  && !s.contains ':'
  && !s.contains '#'
  && !(match s.head? with | some c => c.isDigit | none => false)
  && !(s.head? = some '-')
  && !(decide (pyLower s ∈ yamlReserved))

/-- `raw_filter`: pass-through (`filters.py`). -/
def raw_filter (s : Str) : Str := s

/-- `strip_filter` (`filters.py`). -/
def strip_filter (s : Str) : Str := pyStrip s

/-- `lower_filter` (`filters.py`). -/
def lower_filter (s : Str) : Str := pyLower s

/-- `upper_filter` (`filters.py`). -/
def upper_filter (s : Str) : Str := pyUpper s

/-- `truncate_filter(value, length, suffix)` (`filters.py`): fails with
`FilterError` when `length < len(suffix)`; returns the input when it fits,
else the first `length - len(suffix)` characters plus the suffix. -/
def truncate_filter (s : Str) (length : Nat) (suffix : Str) : Except PyErr Str :=
  if length < suffix.length then
    .error ⟨.FilterError, lit "Truncate length must be >= suffix length"⟩
  else if s.length ≤ length then .ok s
  else .ok (s.take (length - suffix.length) ++ suffix)

/-- The `FILTERS` registry (`filters.py`, lines 188-198).  Each entry is
the registered callable applied to a single string argument, so
`truncate` runs with its default `length=255`, `suffix="..."`.  Filters
that cannot raise are wrapped in `.ok`. -/
def FILTERS : List (Str × (Str → Except PyErr Str)) :=
  [ (lit "json", fun s => .ok (json_filter s)),
    (lit "html", fun s => .ok (html_filter s)),
    (lit "xml", fun s => .ok (xml_filter s)),
    (lit "yaml", fun s => .ok (yaml_filter s)),
    (lit "raw", fun s => .ok (raw_filter s)),
    (lit "strip", fun s => .ok (strip_filter s)),
    (lit "lower", fun s => .ok (lower_filter s)),
    (lit "upper", fun s => .ok (upper_filter s)),
    (lit "truncate", fun s => truncate_filter s 255 (lit "...")) ]

/-- `FILTERS.get(name)`: first (only) binding for the name, if any. -/
def filtersGet (name : Str) : Option (Str → Except PyErr Str) :=
  (FILTERS.find? (fun p => p.1 = name)).map Prod.snd

/-! ### A JSON string-literal reader (RFC 8259 string grammar)

Used to check that the output of `json_filter` is a well-formed quoted
JSON string literal that parses back to the original text.  Escape
handling follows the JSON grammar: the eight two-character escapes,
`\uXXXX` with surrogate-pair combination, and a ban on unescaped control
characters.  (Unpaired surrogate escapes are rejected, which is the one
point where a host language whose strings admit lone surrogates could be
more lenient; Unicode scalar strings cannot carry them at all.) -/

/-- Value of one hexadecimal digit. -/
def hexDigitVal (c : Char) : Option Nat :=
  if '0' ≤ c ∧ c ≤ '9' then some (c.toNat - 48)
  else if 'a' ≤ c ∧ c ≤ 'f' then some (c.toNat - 87)
  else if 'A' ≤ c ∧ c ≤ 'F' then some (c.toNat - 55)
  else none

/-- Value of a four-digit hexadecimal escape payload. -/
def hex4 (a b c d : Char) : Option Nat := do
  let x ← hexDigitVal a
  let y ← hexDigitVal b
  let z ← hexDigitVal c
  let w ← hexDigitVal d
  pure (((x * 16 + y) * 16 + z) * 16 + w)

/-- Decode one `\uXXXX` escape payload (combining a surrogate pair when
the first code is a high surrogate), given the input after the `\u`. -/
def decodeUEscape : Str → Option (Char × Str)
  | a :: b :: c :: d :: rest =>
    match hex4 a b c d with
    | none => none
    | some n =>
      if 0xD800 ≤ n ∧ n ≤ 0xDBFF then
        match rest with
        | '\\' :: 'u' :: a2 :: b2 :: c2 :: d2 :: rest2 =>
          match hex4 a2 b2 c2 d2 with
          | none => none
          | some m =>
            if 0xDC00 ≤ m ∧ m ≤ 0xDFFF then
              some (Char.ofNat (0x10000 + (n - 0xD800) * 0x400 + (m - 0xDC00)), rest2)
            else none
        | _ => none
      else if 0xDC00 ≤ n ∧ n ≤ 0xDFFF then none
      else some (Char.ofNat n, rest)
  | _ => none

/-- Decode one backslash escape, given the input after the backslash. -/
def decodeEscape : Str → Option (Char × Str)
  | [] => none
  | e :: rest =>
    if e = '"' then some ('"', rest)
    else if e = '\\' then some ('\\', rest)
    else if e = '/' then some ('/', rest)
    else if e = 'b' then some (Char.ofNat 8, rest)
    else if e = 'f' then some (Char.ofNat 12, rest)
    else if e = 'n' then some ('\n', rest)
    else if e = 'r' then some ('\x0d', rest)
    else if e = 't' then some ('\t', rest)
    else if e = 'u' then decodeUEscape rest
    else none

/-- Read the body of a JSON string literal after the opening quote,
up to and including the closing quote.  Returns the decoded text and the
remaining input.  Unescaped control characters are rejected, as in the
JSON grammar and Python's strict-mode `json.loads`. -/
def parseJsonStringBody : Str → Option (Str × Str)
  | [] => none
  | c :: rest =>
    if c = '"' then some ([], rest)
    else if c = '\\' then
      match h : decodeEscape rest with
      | none => none
      | some (ch, rest2) => (parseJsonStringBody rest2).map (fun p => (ch :: p.1, p.2))
    else if c.toNat < 0x20 then none
    else (parseJsonStringBody rest).map (fun p => (c :: p.1, p.2))
termination_by s => s.length
decreasing_by
  · have hu : ∀ l r ch, decodeUEscape l = some (ch, r) → r.length < l.length := by
      intro l r ch h
      unfold decodeUEscape at h
      split at h <;> (try exact absurd h (by simp)) <;>
        (try split at h) <;> (try split at h) <;> (try split at h) <;>
        (try split at h) <;> simp_all <;> omega
    have he : ∀ l r ch, decodeEscape l = some (ch, r) → r.length < l.length := by
      intro l r ch h
      unfold decodeEscape at h
      split at h
      · exact absurd h (by simp)
      · split_ifs at h <;> simp_all
        · exact Nat.lt_succ_of_lt (hu _ _ _ h)
    exact Nat.lt_succ_of_lt (he _ _ _ h)
  · simp

/-- Read a complete JSON string literal: an opening quote, a body, a
closing quote, and nothing after it. -/
def parseJsonStringLit (s : Str) : Option Str :=
  match s with
  | '"' :: rest =>
    match parseJsonStringBody rest with
    | some (content, []) => some content
    | _ => none
  | _ => none

/-! ### backends/base.py -/

/-- `GenerationRequest` (`backends/base.py`).  `temperature` is a float in
the source; it is carried opaquely through the pipeline and never computed
with, so it is embedded as a rational. -/
structure GenerationRequest where
  prompt : Str
  max_tokens : Option Nat := none
  temperature : Option ℚ := none
  stop : Option (List Str) := none
  deriving DecidableEq, Repr

/-- `GenerationResponse` (`backends/base.py`). -/
structure GenerationResponse where
  text : Str
  finish_reason : Option Str := none
  deriving DecidableEq, Repr

/-- A backend interaction made by `Template.render`.  The render pipeline
only ever invokes the batch entry point, so a single-request `generate`
call has no constructor arising from `template.py`. -/
inductive BackendCall where
  | batch (requests : List GenerationRequest)
  deriving DecidableEq, Repr

/-! ### context.py -/

/-- `CollectedPrompt` (`context.py`). -/
structure CollectedPrompt where
  placeholder : Str
  prompt : Str
  source_id : Option Nat := none
  max_tokens : Option Nat := none
  temperature : Option ℚ := none
  stop : Option (List Str) := none
  deriving DecidableEq, Repr

/-- `CollectedPrompt.to_request` (`context.py`). -/
def CollectedPrompt.to_request (p : CollectedPrompt) : GenerationRequest :=
  { prompt := p.prompt, max_tokens := p.max_tokens,
    temperature := p.temperature, stop := p.stop }

/-- `RenderContext` (`context.py`).  `generated` is the placeholder →
content dict, most recent binding first; `vars` embeds the `variables`
field, the render's input bindings, with values embedded as strings (only
their formatted text ever matters to the pipeline). -/
structure RenderContext where
  counter : Nat := 0
  prompts : List CollectedPrompt := []
  generated : List (Str × Str) := []
  vars : List (Str × Str) := []
  deriving DecidableEq, Repr

/-- The placeholder `f"__GENJI_GEN_{counter}__"` (`context.py`). -/
def mkPlaceholder (c : Nat) : Str :=
  lit "__GENJI_GEN_" ++ natDigits c ++ lit "__"

/-- `RenderContext.collect_prompt` (`context.py`): build the placeholder
from the counter, bump the counter, append the collected prompt, return
the placeholder with the updated context. -/
def RenderContext.collect_prompt (ctx : RenderContext) (prompt : Str)
    (max_tokens : Option Nat) (temperature : Option ℚ) (stop : Option (List Str))
    (source_id : Option Nat) : Str × RenderContext :=
  let placeholder := mkPlaceholder ctx.counter
  (placeholder,
   { ctx with
     counter := ctx.counter + 1,
     prompts := ctx.prompts ++
       [{ placeholder := placeholder, prompt := prompt, source_id := source_id,
          max_tokens := max_tokens, temperature := temperature, stop := stop }] })

/-- `RenderContext.set_generated` (`context.py`): store the content for a
placeholder (a dict update; the newest binding shadows any older one). -/
def RenderContext.set_generated (ctx : RenderContext) (placeholder content : Str) :
    RenderContext :=
  { ctx with generated := (placeholder, content) :: ctx.generated }

/-- `RenderContext.get_generated` (`context.py`): dict lookup, raising
`KeyError` when the placeholder has no stored content. -/
def RenderContext.get_generated (ctx : RenderContext) (placeholder : Str) :
    Except PyErr Str :=
  match ctx.generated.find? (fun p => p.1 = placeholder) with
  | some p => .ok p.2
  | none => .error ⟨.KeyError, placeholder⟩

/-! ### parser.py -/

/-- Is a format field name one the simple-field model resolves
(no attribute access, indexing, conversion or format spec)? -/
def isSimpleField (name : Str) : Bool :=
  !name.isEmpty && name.all (fun c => c ≠ '.' && c ≠ '[' && c ≠ ']' && c ≠ '!' && c ≠ ':')

/-- Modelled from Python's `str.format(**variables)` as used for prompt
interpolation, restricted to simple named replacement fields `{name}` and
the brace escapes `{{` / `}}`: a field whose name is bound in the
variables is replaced by its value; a missing key, an unmatched brace or
a field using unmodelled syntax (attribute access, indexing, conversions,
format specs, positional fields) is a formatting failure (`none`),
standing for the `KeyError` / `IndexError` / `ValueError` that
`parser.py` catches. -/
def pyFormatGo (vars : List (Str × Str)) : Nat → Str → Option Str
  | 0, _ => none
  | fuel + 1, s =>
    match s with
    | [] => some []
    | '{' :: '{' :: rest => (pyFormatGo vars fuel rest).map ('{' :: ·)
    | '}' :: '}' :: rest => (pyFormatGo vars fuel rest).map ('}' :: ·)
    | '{' :: rest =>
      let name := rest.takeWhile (fun c => c ≠ '{' && c ≠ '}')
      match rest.drop name.length with
      | '}' :: rest2 =>
        if isSimpleField name then
          match vars.find? (fun p => p.1 = name) with
          | some p => (pyFormatGo vars fuel rest2).map (p.2 ++ ·)
          | none => none
        else none
      | _ => none
    | '}' :: _ => none
    | c :: rest => (pyFormatGo vars fuel rest).map (c :: ·)

/-- `prompt.format(**ctx.vars)`, in the simple-field model.  The fuel
`s.length + 1` makes the recursion structural and is always sufficient
(every step consumes at least one character). -/
def pyFormat (s : Str) (vars : List (Str × Str)) : Option Str :=
  pyFormatGo vars (s.length + 1) s

/-- The error `gen()` raises when no render context is active
(`parser.py`, `_gen_function`, lines 57-63). -/
def genNoContextError : PyErr :=
  ⟨.TemplateParseError,
   lit "gen() called outside of render context. This should not happen - please report this bug."⟩

/-- `get_current_context` (`context.py`): the ambient context, or
`RuntimeError` when none is active. -/
def get_current_context (active : Option RenderContext) : Except PyErr RenderContext :=
  match active with
  | none => .error ⟨.RuntimeError, lit "No active render context"⟩
  | some ctx => .ok ctx

/-- `GenjiExtension._gen_function` (`parser.py`): wraps a missing context
in `TemplateParseError`; interpolates the prompt against the context
variables, falling back to the verbatim prompt on interpolation failure;
registers the prompt and returns the placeholder with the updated
context. -/
def gen_function (active : Option RenderContext) (prompt : Str)
    (max_tokens : Option Nat) (temperature : Option ℚ) (stop : Option (List Str))
    (source_id : Option Nat) : Except PyErr (Str × RenderContext) :=
  match get_current_context active with
  | .error _ => .error genNoContextError
  | .ok ctx =>
    let interpolated_prompt :=
      match pyFormat prompt ctx.vars with
      | some s => s
      | none => prompt
    .ok (ctx.collect_prompt interpolated_prompt max_tokens temperature stop source_id)

/-- The exception class `parse_template` (`parser.py`, lines 110-119)
raises for a construction-time template parse failure. -/
def constructionParseErrorClass : PyClass := .TemplateParseError

/-- The unified exception class `template.py` raises for render-time
failures (collection, generation und interpolation). -/
def renderErrorClass : PyClass := .TemplateRenderError

/-! ### template.py -/

/-- A `Template` after construction: the filter-chain table built by
`_extract_and_inject_filters` and the configured default filter. -/
structure Template where
  filter_chains : List (Nat × List Str)
  default_filter : Option Str := none
  deriving DecidableEq, Repr

/-- `self._filter_chains.get(key, [])`: dict lookup with default. -/
def chainsGet (chains : List (Nat × List Str)) (key : Nat) : List Str :=
  match chains.find? (fun p => p.1 = key) with
  | some p => p.2
  | none => []

/-- Python `prompt.source_id or 0` on an optional int: `None` and `0` are
falsy and give `0`. -/
def pyOrZero : Option Nat → Nat
  | none => 0
  | some n => if n = 0 then 0 else n

/-- Python truthiness of the optional `default_filter` string. -/
def pyTruthyStrOpt : Option Str → Bool
  | none => false
  | some s => !s.isEmpty

/-- The filter-chain resolution of `Template._interpolate`
(`template.py`, lines 233-238): the recorded chain; a single default
filter when the recorded chain is empty and a (truthy) default is
configured; the empty chain when the recorded chain is exactly
`["raw"]`. -/
def resolveChain (t : Template) (source_id : Option Nat) : List Str :=
  let filter_chain := chainsGet t.filter_chains (pyOrZero source_id)
  if filter_chain.isEmpty && pyTruthyStrOpt t.default_filter then
    [t.default_filter.getD []]
  else if filter_chain = [lit "raw"] then []
  else filter_chain

/-- The filter loop of `Template._interpolate` (`template.py`, lines
240-249): look each name up in `FILTERS`, skip unknown names, apply known
ones in order, wrapping a filter failure in `TemplateRenderError`. -/
def applyFilterChain (chain : List Str) (content : Str) : Except PyErr Str :=
  match chain with
  | [] => .ok content
  | name :: rest =>
    match filtersGet name with
    | none => applyFilterChain rest content
    | some f =>
      match f content with
      | .ok c => applyFilterChain rest c
      | .error e =>
        .error ⟨.TemplateRenderError, lit "Filter '" ++ name ++ lit "' failed: " ++ e.msg⟩

/-- The prompt loop of `Template._interpolate` (`template.py`, lines
229-253): for each collected prompt in order, look up its generated
content, resolve and apply its filter chain, and literally replace the
prompt's placeholder in the accumulated text. -/
def interpolateLoop (t : Template) (ctx : RenderContext) :
    List CollectedPrompt → Str → Except PyErr Str
  | [], result => .ok result
  | p :: ps, result =>
    match ctx.get_generated p.placeholder with
    | .error e => .error e
    | .ok generated =>
      match applyFilterChain (resolveChain t p.source_id) generated with
      | .error e => .error e
      | .ok filtered_content =>
        interpolateLoop t ctx ps (pyReplace result p.placeholder filtered_content)

/-- `Template._interpolate` (`template.py`). -/
def Template.interpolate (t : Template) (first_pass : Str) (ctx : RenderContext) :
    Except PyErr Str :=
  interpolateLoop t ctx ctx.prompts first_pass

/-- One `gen(...)` invocation observed while the compiled template is
evaluated during the collection phase, with the arguments the template
passed (the `source_id` being the injected `__source_id`). -/
structure GenEvent where
  prompt : Str
  max_tokens : Option Nat := none
  temperature : Option ℚ := none
  stop : Option (List Str) := none
  source_id : Option Nat := none
  deriving DecidableEq, Repr

/-- Phase 1 (collection) of `Template.render`: a fresh context with the
caller's variables is active while the compiled template is evaluated;
each fired `gen(...)` call site registers one prompt through
`gen_function`, in evaluation order. -/
def collectPhase (vs : List (Str × Str)) (events : List GenEvent) :
    Except PyErr RenderContext :=
  events.foldlM
    (fun ctx e =>
      (gen_function (some ctx) e.prompt e.max_tokens e.temperature e.stop
        e.source_id).map Prod.snd)
    { vars := vs }

/-- Phases 2 and 3 of `Template.render` (`template.py`, lines 287-302),
given the phase-1 output text and the populated context: return
immediately when no prompts were collected; otherwise make the one batch
call, wrap a backend failure in `TemplateRenderError`, pair responses
with prompts positionally, and interpolate.  The second component records
every backend interaction. -/
def Template.renderPhases (t : Template)
    (backend : List GenerationRequest → Except PyErr (List GenerationResponse))
    (first_pass : Str) (ctx : RenderContext) :
    Except PyErr Str × List BackendCall :=
  if ctx.prompts.isEmpty then (.ok first_pass, [])
  else
    let requests := ctx.prompts.map CollectedPrompt.to_request
    match backend requests with
    | .error e =>
      (.error ⟨.TemplateRenderError, lit "LLM backend generation failed: " ++ e.msg⟩,
       [.batch requests])
    | .ok responses =>
      let ctx2 := (ctx.prompts.zip responses).foldl
        (fun c pr => c.set_generated pr.1.placeholder pr.2.text) ctx
      (t.interpolate first_pass ctx2, [.batch requests])

/-- `Template.render` (`template.py`): collection, then generation and
interpolation.  The evaluation of the compiled template is the external
collaborator; its outcome is the evaluated text together with the ordered
`gen(...)` calls it made. -/
def Template.render (t : Template)
    (backend : List GenerationRequest → Except PyErr (List GenerationResponse))
    (vs : List (Str × Str)) (first_pass : Str) (events : List GenEvent) :
    Except PyErr Str × List BackendCall :=
  match collectPhase vs events with
  | .error e => (.error e, [])
  | .ok ctx => t.renderPhases backend first_pass ctx

/-- Value of a decimal digit string; inverts `natDigits`. -/
def digitsToNat (l : Str) : Nat := l.foldl (fun acc c => acc * 10 + (c.toNat - 48)) 0

/-- The prompt one collection-phase `gen(...)` call registers, given the
render variables and the context counter at the moment of the call. -/
def expectedPrompt (vs : List (Str × Str)) (c : Nat) (e : GenEvent) : CollectedPrompt :=
  { placeholder := mkPlaceholder c,
    prompt := (pyFormat e.prompt vs).getD e.prompt,
    source_id := e.source_id, max_tokens := e.max_tokens,
    temperature := e.temperature, stop := e.stop }

/-- The prompts the collection phase registers for a sequence of fired
call sites, starting from a given counter value. -/
def expectedPrompts (vs : List (Str × Str)) (c : Nat) : List GenEvent → List CollectedPrompt
  | [] => []
  | e :: es => expectedPrompt vs c e :: expectedPrompts vs (c + 1) es

/-! ### json.loads (the structured-output parser of `render_json`) -/

/-- A parsed JSON value.  Numeric lexemes are kept as text: `render_json`
only hands the parsed value back, no arithmetic is ever performed.
Python's `json.loads` extensions `NaN`/`Infinity`/`-Infinity` are read as
numeric lexemes too. -/
inductive JsonValue where
  | null
  | bool (b : Bool)
  | num (lexeme : Str)
  | str (s : Str)
  | arr (items : List JsonValue)
  | obj (fields : List (Str × JsonValue))

/-- JSON insignificant whitespace. -/
def jsonWs (c : Char) : Bool :=
  c = ' ' || c = '\t' || c = '\n' || c = '\x0d'

/-- Skip insignificant whitespace. -/
def skipWs (s : Str) : Str := s.dropWhile jsonWs

/-- Read a JSON string body after the opening quote (fuel-structural
variant of `parseJsonStringBody`, sharing `decodeEscape`). -/
def readJsonString : Nat → Str → Option (Str × Str)
  | 0, _ => none
  | fuel + 1, s =>
    match s with
    | [] => none
    | c :: rest =>
      if c = '"' then some ([], rest)
      else if c = '\\' then
        match decodeEscape rest with
        | none => none
        | some (ch, rest2) =>
          (readJsonString fuel rest2).map (fun p => (ch :: p.1, p.2))
      else if c.toNat < 0x20 then none
      else (readJsonString fuel rest).map (fun p => (c :: p.1, p.2))

/-- Read one or more decimal digits. -/
def readDigits1 (s : Str) : Option (Str × Str) :=
  match s.takeWhile Char.isDigit with
  | [] => none
  | ds => some (ds, s.drop ds.length)

/-- Read a JSON number lexeme
(`-?(0|[1-9][0-9]*)(\\.[0-9]+)?([eE][+-]?[0-9]+)?`). -/
def readNumber (s : Str) : Option (Str × Str) :=
  let (sign, s1) := match s with
    | '-' :: r => ((['-'] : Str), r)
    | _ => (([] : Str), s)
  let intPart : Option (Str × Str) :=
    match s1 with
    | '0' :: r => some (sign ++ ['0'], r)
    | c :: _ =>
      if c.isDigit then
        match readDigits1 s1 with
        | some (ds, r) => some (sign ++ ds, r)
        | none => none
      else none
    | [] => none
  let withFrac : Option (Str × Str) :=
    intPart.bind (fun p =>
      match p.2 with
      | '.' :: r2 =>
        match readDigits1 r2 with
        | some (fs, r3) => some (p.1 ++ '.' :: fs, r3)
        | none => none
      | _ => some p)
  withFrac.bind (fun p =>
    match p.2 with
    | 'e' :: r2 =>
      let (sg, r3) := match r2 with
        | '+' :: r3 => ((['+'] : Str), r3)
        | '-' :: r3 => ((['-'] : Str), r3)
        | _ => (([] : Str), r2)
      match readDigits1 r3 with
      | some (es, r4) => some (p.1 ++ 'e' :: sg ++ es, r4)
      | none => none
    | 'E' :: r2 =>
      let (sg, r3) := match r2 with
        | '+' :: r3 => ((['+'] : Str), r3)
        | '-' :: r3 => ((['-'] : Str), r3)
        | _ => (([] : Str), r2)
      match readDigits1 r3 with
      | some (es, r4) => some (p.1 ++ 'E' :: sg ++ es, r4)
      | none => none
    | _ => some p)

mutual

/-- Read one JSON value (leading whitespace allowed), fuel-structural.
`jsonLoads` supplies ample fuel. -/
def parseJsonValue : Nat → Str → Option (JsonValue × Str)
  | 0, _ => none
  | fuel + 1, s =>
    match skipWs s with
    | '{' :: r =>
      match skipWs r with
      | '}' :: r2 => some (.obj [], r2)
      | r2 => (parseJsonMembers fuel r2).map (fun p => (.obj p.1, p.2))
    | '[' :: r =>
      match skipWs r with
      | ']' :: r2 => some (.arr [], r2)
      | r2 => (parseJsonItems fuel r2).map (fun p => (.arr p.1, p.2))
    | '"' :: r => (readJsonString (fuel + 1) r).map (fun p => (.str p.1, p.2))
    | 't' :: 'r' :: 'u' :: 'e' :: r => some (.bool true, r)
    | 'f' :: 'a' :: 'l' :: 's' :: 'e' :: r => some (.bool false, r)
    | 'n' :: 'u' :: 'l' :: 'l' :: r => some (.null, r)
    | 'N' :: 'a' :: 'N' :: r => some (.num (lit "NaN"), r)
    | 'I' :: 'n' :: 'f' :: 'i' :: 'n' :: 'i' :: 't' :: 'y' :: r =>
      some (.num (lit "Infinity"), r)
    | '-' :: 'I' :: 'n' :: 'f' :: 'i' :: 'n' :: 'i' :: 't' :: 'y' :: r =>
      some (.num (lit "-Infinity"), r)
    | r => (readNumber r).map (fun p => (.num p.1, p.2))

/-- Read the non-empty member list of a JSON object, starting at the
first key's opening quote (whitespace already skipped), consuming the
closing brace. -/
def parseJsonMembers : Nat → Str → Option (List (Str × JsonValue) × Str)
  | 0, _ => none
  | fuel + 1, s =>
    match s with
    | '"' :: r =>
      match readJsonString (fuel + 1) r with
      | none => none
      | some (key, r2) =>
        match skipWs r2 with
        | ':' :: r3 =>
          match parseJsonValue fuel r3 with
          | none => none
          | some (v, r4) =>
            match skipWs r4 with
            | ',' :: r5 =>
              (parseJsonMembers fuel (skipWs r5)).map
                (fun p => ((key, v) :: p.1, p.2))
            | '}' :: r5 => some ([(key, v)], r5)
            | _ => none
        | _ => none
    | _ => none

/-- Read the non-empty item list of a JSON array (whitespace already
skipped), consuming the closing bracket. -/
def parseJsonItems : Nat → Str → Option (List JsonValue × Str)
  | 0, _ => none
  | fuel + 1, s =>
    match parseJsonValue fuel s with
    | none => none
    | some (v, r) =>
      match skipWs r with
      | ',' :: r2 => (parseJsonItems fuel r2).map (fun p => (v :: p.1, p.2))
      | ']' :: r2 => some ([v], r2)
      | _ => none

end

/-- `json.loads`: parse one JSON document with nothing but whitespace
after it. -/
def jsonLoads (s : Str) : Option JsonValue :=
  match parseJsonValue (s.length + 1) s with
  | some (v, rest) => if (skipWs rest).isEmpty then some v else none
  | none => none

/-- `Template.render_json` (`template.py`, lines 307-326): render, then
parse the result as JSON; wrap a parse failure in `TemplateRenderError`
with a message carrying the raw rendered output (the decode-error detail
of the Python message is elided in the embedding). -/
def Template.render_json (t : Template)
    (backend : List GenerationRequest → Except PyErr (List GenerationResponse))
    (vs : List (Str × Str)) (first_pass : Str) (events : List GenEvent) :
    Except PyErr JsonValue × List BackendCall :=
  let r := t.render backend vs first_pass events
  match r.1 with
  | .error e => (.error e, r.2)
  | .ok result =>
    match jsonLoads result with
    | some v => (.ok v, r.2)
    | none =>
      (.error ⟨.TemplateRenderError,
        lit "Template output is not valid JSON: " ++ lit "\nOutput was:\n" ++ result⟩,
       r.2)

/-! ### The call-site scanner of `_extract_and_inject_filters`

`template.py` scans the source with the regular expression

`\{\{\s*gen\(([^)]+(?:\([^)]*\)[^)]*)*)\)\s*(\|[^}]+)?\s*\}\}`

via `re.finditer`.  The expression is embedded as data (`genPattern`) for
a small backtracking engine (`reMatch`) that enumerates outcomes in the
standard leftmost-greedy preference order; the scanner takes the first
outcome at the leftmost matching position, exactly as `re.finditer`
does.  `\s` is modelled as ASCII whitespace. -/

/-- `hexDigitVal` inverts the hex-digit encoding used by `jsonEscChar`. -/
theorem hexDigitVal_encode {m : Nat} (hm : m < 16) :
    hexDigitVal (Char.ofNat (if m < 10 then 48 + m else 87 + m)) = some m := by
  interval_cases m <;> decide

/-- `decodeEscape` inverts the `\u00XX` encoding of a control character. -/
theorem decodeEscape_u (c : Char) (h8 : c.toNat < 0x20) (X : Str) :
    decodeEscape ('u' :: '0' :: '0' ::
      Char.ofNat (if c.toNat / 16 < 10 then 48 + c.toNat / 16 else 87 + c.toNat / 16) ::
      Char.ofNat (if c.toNat % 16 < 10 then 48 + c.toNat % 16 else 87 + c.toNat % 16) ::
      X) = some (c, X) := by
  have hd1 : c.toNat / 16 < 16 := by omega
  have hd2 : c.toNat % 16 < 16 := by omega
  simp only [decodeEscape]
  norm_num
  simp only [decodeUEscape, hex4, hexDigitVal_encode hd1, hexDigitVal_encode hd2]
  simp only [show hexDigitVal '0' = some 0 from rfl, Option.bind_eq_bind, Option.some_bind]
  have hval : ((0 * 16 + 0) * 16 + c.toNat / 16) * 16 + c.toNat % 16 = c.toNat := by omega
  simp only [hval]
  rw [if_neg (show ¬(55296 ≤ c.toNat ∧ c.toNat ≤ 56319) by omega),
      if_neg (show ¬(56320 ≤ c.toNat ∧ c.toNat ≤ 57343) by omega)]
  simp [Char.ofNat_toNat]

/-- Reading back an escaped body recovers the original text and stops at
the closing quote. -/
theorem parseBody_escape (s : Str) (rest : Str) :
    parseJsonStringBody (s.flatMap jsonEscChar ++ '"' :: rest) = some (s, rest) := by
  induction s with
  | nil => simp [parseJsonStringBody]
  | cons c t ih =>
    by_cases h1 : c = '"'
    · subst h1; simp [jsonEscChar, parseJsonStringBody, decodeEscape, ih]
    by_cases h2 : c = '\\'
    · subst h2; simp [jsonEscChar, parseJsonStringBody, decodeEscape, ih]
    by_cases h3 : c = '\n'
    · subst h3; simp [jsonEscChar, parseJsonStringBody, decodeEscape, ih]
    by_cases h4 : c = '\x0d'
    · subst h4; simp [jsonEscChar, parseJsonStringBody, decodeEscape, ih]
    by_cases h5 : c = '\t'
    · subst h5; simp [jsonEscChar, parseJsonStringBody, decodeEscape, ih]
    by_cases h6 : c = Char.ofNat 8
    · subst h6; simp [jsonEscChar, parseJsonStringBody, decodeEscape, ih]
    by_cases h7 : c = Char.ofNat 12
    · subst h7; simp [jsonEscChar, parseJsonStringBody, decodeEscape, ih]
    by_cases h8 : c.toNat < 0x20
    · simp only [jsonEscChar, h1, h2, h3, h4, h5, h6, h7, h8, if_true, if_false,
        ite_true, ite_false, List.flatMap_cons, List.cons_append, List.nil_append,
        List.append_assoc]
      rw [parseJsonStringBody]
      norm_num
      rw [decodeEscape_u c h8]
      simp [ih]
    · simp only [jsonEscChar, h1, h2, h3, h4, h5, h6, h7, h8, if_true, if_false,
        ite_true, ite_false, List.flatMap_cons, List.cons_append, List.nil_append,
        List.append_assoc]
      rw [parseJsonStringBody]
      simp [h1, h2, h8, ih]

/-- C7: for every input string — quotes, backslashes, newlines, control
and non-ASCII characters included — the `json` filter produces a complete
quoted JSON string literal, and parsing that literal as a JSON string
succeeds and recovers the original string exactly. -/
theorem claim_C7_json_filter_roundtrip (s : Str) :
    parseJsonStringLit (json_filter s) = some s := by
  simp [json_filter, parseJsonStringLit, parseBody_escape]

/-- C2: a render in which zero generation call sites fire returns the
evaluated template text unchanged and makes no backend call of any kind. -/
theorem claim_C2_zero_callsites (t : Template)
    (backend : List GenerationRequest → Except PyErr (List GenerationResponse))
    (vs : List (Str × Str)) (first_pass : Str) :
    t.render backend vs first_pass [] = (.ok first_pass, []) := rfl

/-- C3: the resolved filter chain for a collected prompt is the recorded
chain when non-empty; a single default filter when the recorded chain is
empty and a default is configured; empty when no default is configured;
and a recorded chain of exactly `["raw"]` suppresses the default and
leaves the generated text unfiltered. -/
theorem claim_C3_filter_resolution (t : Template) (sid : Option Nat) (g : Str) :
    (chainsGet t.filter_chains (pyOrZero sid) ≠ [] →
      chainsGet t.filter_chains (pyOrZero sid) ≠ [lit "raw"] →
      resolveChain t sid = chainsGet t.filter_chains (pyOrZero sid))
    ∧ (∀ d, chainsGet t.filter_chains (pyOrZero sid) = [] →
      t.default_filter = some d → d ≠ [] → resolveChain t sid = [d])
    ∧ (chainsGet t.filter_chains (pyOrZero sid) = [] →
      t.default_filter = none → resolveChain t sid = [])
    ∧ (chainsGet t.filter_chains (pyOrZero sid) = [lit "raw"] →
      resolveChain t sid = [] ∧ applyFilterChain (resolveChain t sid) g = .ok g) := by
  refine ⟨fun h1 h2 => ?_, fun d h1 h2 h3 => ?_, fun h1 h2 => ?_, fun h1 => ?_⟩
  · simp [resolveChain, h1, h2, List.isEmpty_iff]
  · simp [resolveChain, h1, h2, pyTruthyStrOpt, List.isEmpty_iff,
      show d ≠ [] from h3]
  · simp [resolveChain, h1, h2, pyTruthyStrOpt]
  · have : resolveChain t sid = [] := by
      simp [resolveChain, h1, List.isEmpty_iff]
    exact ⟨this, by simp [this, applyFilterChain]⟩

/-- Witness for C3 at a concrete template: a recorded `["raw"]` chain
with a configured `json` default resolves to the empty chain and leaves
text unfiltered. -/
theorem claim_C3_filter_resolution_witness :
    resolveChain ⟨[(0, [lit "raw"])], some (lit "json")⟩ (some 0) = [] ∧
    applyFilterChain
      (resolveChain ⟨[(0, [lit "raw"])], some (lit "json")⟩ (some 0)) (lit "x") =
      .ok (lit "x") :=
  (claim_C3_filter_resolution ⟨[(0, [lit "raw"])], some (lit "json")⟩ (some 0)
    (lit "x")).2.2.2 (by decide)

/-- C5 counterexample: `gen()` with no active render context raises
`TemplateParseError` — the very class `parse_template` uses for
construction-time parse failures, so the raised class is not distinct
from the construction-time template error class. -/
theorem claim_C5_counterexample :
    gen_function none (lit "p") none none none none = .error genNoContextError ∧
    genNoContextError.cls = constructionParseErrorClass :=
  ⟨rfl, rfl⟩

/-- C5 amended: `gen()` with no active render context fails with
`TemplateParseError`, which is distinct from the render-time failure
class (`TemplateRenderError`) but is the same class used for
construction-time parse failures; with an active context `gen()` returns
normally. -/
theorem claim_C5_amended (prompt : Str) (mt : Option Nat) (tp : Option ℚ)
    (st : Option (List Str)) (sid : Option Nat) :
    gen_function none prompt mt tp st sid = .error genNoContextError
    ∧ genNoContextError.cls = .TemplateParseError
    ∧ genNoContextError.cls ≠ renderErrorClass
    ∧ ∀ ctx, ∃ r, gen_function (some ctx) prompt mt tp st sid = .ok r :=
  ⟨rfl, rfl, by decide, fun ctx => ⟨_, rfl⟩⟩

/-- C6: with an active render context, a prompt whose `{key}`-style
interpolation fails is registered verbatim and the call still succeeds;
a prompt whose interpolation succeeds is registered fully interpolated. -/
theorem claim_C6_prompt_interpolation (ctx : RenderContext) (p : Str)
    (mt : Option Nat) (tp : Option ℚ) (st : Option (List Str)) (sid : Option Nat) :
    (pyFormat p ctx.vars = none →
      gen_function (some ctx) p mt tp st sid =
        .ok (mkPlaceholder ctx.counter,
          { ctx with
            counter := ctx.counter + 1,
            prompts := ctx.prompts ++ [⟨mkPlaceholder ctx.counter, p, sid, mt, tp, st⟩] }))
    ∧ (∀ s, pyFormat p ctx.vars = some s →
      gen_function (some ctx) p mt tp st sid =
        .ok (mkPlaceholder ctx.counter,
          { ctx with
            counter := ctx.counter + 1,
            prompts := ctx.prompts ++ [⟨mkPlaceholder ctx.counter, s, sid, mt, tp, st⟩] })) := by
  constructor
  · intro h
    simp [gen_function, get_current_context, RenderContext.collect_prompt, h]
  · intro s h
    simp [gen_function, get_current_context, RenderContext.collect_prompt, h]

/-- Witness for C6 at concrete inputs: a missing key registers the
verbatim prompt; a bound key registers the interpolated prompt. -/
theorem claim_C6_prompt_interpolation_witness :
    gen_function (some {}) (lit "\x7bmissing\x7d") none none none none =
      .ok (mkPlaceholder 0,
        { counter := 1,
          prompts := [⟨mkPlaceholder 0, lit "\x7bmissing\x7d", none, none, none, none⟩] })
    ∧ gen_function (some { vars := [(lit "n", lit "X")] }) (lit "hi \x7bn\x7d")
        none none none none =
      .ok (mkPlaceholder 0,
        { counter := 1,
          prompts := [⟨mkPlaceholder 0, lit "hi X", none, none, none, none⟩],
          vars := [(lit "n", lit "X")] }) :=
  ⟨(claim_C6_prompt_interpolation {} (lit "\x7bmissing\x7d") none none none none).1
      (by decide),
   (claim_C6_prompt_interpolation { vars := [(lit "n", lit "X")] } (lit "hi \x7bn\x7d")
      none none none none).2 (lit "hi X") (by decide)⟩

/-- C10: a filter name absent from the registry is silently skipped by
the interpolation filter loop — the text passes through unchanged and the
outcome is identical to the chain without that entry — and a failing
outcome always traces back to a registered filter that failed. -/
theorem claim_C10_unknown_filter_skipped (u : Str) (hu : filtersGet u = none) :
    (∀ pre post g, applyFilterChain (pre ++ u :: post) g = applyFilterChain (pre ++ post) g)
    ∧ (∀ chain g e, applyFilterChain chain g = .error e →
        ∃ name, name ∈ chain ∧ ∃ f, filtersGet name = some f ∧ ∃ v e', f v = .error e') := by
  constructor
  · intro pre post g
    induction pre generalizing g with
    | nil => simp [applyFilterChain, hu]
    | cons a pre ih =>
      simp only [List.cons_append, applyFilterChain]
      cases hf : filtersGet a with
      | none => simp only [hf]; exact ih g
      | some f =>
        simp only [hf]
        cases hfg : f g with
        | ok c => simp only [hfg]; exact ih c
        | error e => simp only [hfg]
  · intro chain
    induction chain with
    | nil => intro g e h; simp [applyFilterChain] at h
    | cons a rest ih =>
      intro g e h
      simp only [applyFilterChain] at h
      cases hf : filtersGet a with
      | none =>
        simp only [hf] at h
        obtain ⟨name, hmem, rest'⟩ := ih g e h
        exact ⟨name, List.mem_cons_of_mem _ hmem, rest'⟩
      | some f =>
        simp only [hf] at h
        cases hfg : f g with
        | ok c =>
          simp only [hfg] at h
          obtain ⟨name, hmem, rest'⟩ := ih c e h
          exact ⟨name, List.mem_cons_of_mem _ hmem, rest'⟩
        | error e' =>
          exact ⟨a, List.mem_cons_self a rest, f, hf, g, e', hfg⟩

/-- Witness for C10 at a concrete chain: the unknown name `nosuch`
between `upper` and `strip` is skipped. -/
theorem claim_C10_unknown_filter_skipped_witness :
    applyFilterChain [lit "upper", lit "nosuch", lit "strip"] (lit " a b ") =
      applyFilterChain [lit "upper", lit "strip"] (lit " a b ") :=
  (claim_C10_unknown_filter_skipped (lit "nosuch") rfl).1
    [lit "upper"] [lit "strip"] (lit " a b ")

/-- A single-character pattern replaced by a non-empty replacement never
shortens a string. -/
theorem pyReplace_single_length_ge (s : Str) (pat rep : Str)
    (hpat : pat.length = 1) (hrep : rep ≠ []) :
    s.length ≤ (pyReplace s pat rep).length := by
  obtain ⟨x, hx⟩ : ∃ x, pat = [x] := by
    cases pat with
    | nil => simp at hpat
    | cons a l => cases l with
      | nil => exact ⟨a, rfl⟩
      | cons b m => simp at hpat
  subst hx
  show s.length ≤ (pyReplaceGo x [] rep (s.length + 1) s).length
  generalize s.length + 1 = fuel
  induction fuel generalizing s with
  | zero => simp [pyReplaceGo]
  | succ n ih =>
    cases s with
    | nil => simp [pyReplaceGo]
    | cons c rest =>
      simp only [pyReplaceGo]
      split
      · simp only [List.length_cons, List.drop_succ_cons, List.length_nil,
          List.drop_zero, List.length_append]
        have := ih rest
        have hr : 1 ≤ rep.length := by
          cases rep
          · simp at hrep
          · simp
        omega
      · simp only [List.length_cons]
        have := ih rest
        omega

theorem yamlEscape_length_ge (s : Str) : s.length ≤ (yamlEscape s).length := by
  unfold yamlEscape
  have h1 := pyReplace_single_length_ge s (lit "\\") (lit "\\\\") rfl (by decide)
  have h2 := pyReplace_single_length_ge (pyReplace s (lit "\\") (lit "\\\\"))
    (lit "\"") (lit "\\\"") rfl (by decide)
  have h3 := pyReplace_single_length_ge
    (pyReplace (pyReplace s (lit "\\") (lit "\\\\")) (lit "\"") (lit "\\\""))
    (lit "\n") (lit "\\n") rfl (by decide)
  have h4 := pyReplace_single_length_ge
    (pyReplace (pyReplace (pyReplace s (lit "\\") (lit "\\\\")) (lit "\"") (lit "\\\""))
      (lit "\n") (lit "\\n"))
    (lit "\x0d") (lit "\\r") rfl (by decide)
  have h5 := pyReplace_single_length_ge
    (pyReplace (pyReplace (pyReplace (pyReplace s (lit "\\") (lit "\\\\")) (lit "\"")
      (lit "\\\"")) (lit "\n") (lit "\\n")) (lit "\x0d") (lit "\\r"))
    (lit "\t") (lit "\\t") rfl (by decide)
  omega

theorem yaml_quoted_of_needs (s : Str) (h : (yamlNeedsQuoting s || s.isEmpty) = true) :
    yaml_filter s = '"' :: yamlEscape s ++ ['"'] := by
  simp [yaml_filter, h]

theorem yaml_quoted_ne (s : Str) (h : (yamlNeedsQuoting s || s.isEmpty) = true) :
    yaml_filter s ≠ s := by
  intro heq
  rw [yaml_quoted_of_needs s h] at heq
  have hlen := congrArg List.length heq
  simp only [List.length_cons, List.length_append, List.length_singleton] at hlen
  have := yamlEscape_length_ge s
  omega

theorem yamlNeedsQuoting_eq_amended (s : Str) :
    (yamlNeedsQuoting s || s.isEmpty) = !yamlPlainAmended s := by
  cases s with
  | nil => decide
  | cons c t =>
    rcases h : (c :: t).reverse with _ | ⟨d, r⟩
    · exact absurd h (by simp)
    · have hlast : (c :: t).getLast? = some d := by
        rw [← List.head?_reverse, h, List.head?_cons]
      have hhy : ((c :: t).contains '-' && decide (c = '-')) = decide (c = '-') := by
        by_cases hc : c = '-'
        · subst hc
          simp [List.contains_cons]
        · simp [hc]
      simp only [yamlNeedsQuoting, yamlPlainAmended, yamlReserved, h, hlast, hhy,
        List.head?_cons, List.isEmpty_cons, Option.some.injEq, Char.isDigit]
      rw [Bool.eq_iff_iff]
      simp only [Bool.or_eq_true, Bool.and_eq_true, Bool.not_eq_true',
        Bool.eq_false_iff, ne_eq, decide_eq_true_eq]
      constructor
      · intro hh
        tauto
      · intro hh
        tauto

/-- C8 counterexample: the claim's unquoted-iff condition fails on the
code.  The empty string satisfies every "contains none of" condition yet
`yaml_filter` quotes it; the string `"\rx"` has leading whitespace (a
carriage return) yet `yaml_filter` returns it unquoted. -/
theorem claim_C8_counterexample :
    (yamlClaimPlain (lit "") = true ∧ yaml_filter (lit "") ≠ lit "")
    ∧ (yamlClaimPlain (lit "\x0dx") = false ∧ yaml_filter (lit "\x0dx") = lit "\x0dx") := by
  decide

/-- C8 amended: `yaml_filter` returns the string unquoted iff it is
non-empty and has no leading/trailing space or tab, no newline, colon or
hash, no leading digit or hyphen, and is not a reserved boolean/null
literal (case-insensitive); otherwise it returns the string wrapped in
double quotes with backslash, quote, newline, carriage return and tab
escaped. -/
theorem claim_C8_yaml_amended (s : Str) :
    (yaml_filter s = s ↔ yamlPlainAmended s = true)
    ∧ (yamlPlainAmended s = false → yaml_filter s = '"' :: yamlEscape s ++ ['"']) := by
  have key := yamlNeedsQuoting_eq_amended s
  constructor
  · constructor
    · intro h
      by_contra hg
      have hfalse : yamlPlainAmended s = false := by
        cases hpa : yamlPlainAmended s
        · rfl
        · exact absurd hpa hg
      have hneed : (yamlNeedsQuoting s || s.isEmpty) = true := by
        rw [key, hfalse]
        rfl
      exact yaml_quoted_ne s hneed h
    · intro h
      have hneed : (yamlNeedsQuoting s || s.isEmpty) = false := by
        rw [key, h]
        rfl
      simp [yaml_filter, hneed]
  · intro h
    have hneed : (yamlNeedsQuoting s || s.isEmpty) = true := by
      rw [key, h]
      rfl
    exact yaml_quoted_of_needs s hneed

/-- Witness for the amended C8 at a concrete input needing quotes. -/
theorem claim_C8_yaml_amended_witness :
    yaml_filter (lit "a:b") = '"' :: yamlEscape (lit "a:b") ++ ['"'] :=
  (claim_C8_yaml_amended (lit "a:b")).2 (by decide)

/-- The code point of a decimal digit character. -/
theorem digitChar_toNat {n : Nat} (h : n < 10) : (digitChar n).toNat = 48 + n := by
  have hv : (48 + n).isValidChar := by
    left
    omega
  rw [digitChar, Char.ofNat, dif_pos hv]
  rfl

/-- Peeling the last digit off a digit string. -/
theorem digitsToNat_append (l : Str) (c : Char) :
    digitsToNat (l ++ [c]) = digitsToNat l * 10 + (c.toNat - 48) := by
  simp [digitsToNat, List.foldl_append]

/-- `digitsToNat` inverts `natDigitsGo` whenever the fuel suffices. -/
theorem digitsToNat_go {fuel n : Nat} (h : n < fuel) :
    digitsToNat (natDigitsGo fuel n) = n := by
  induction fuel generalizing n with
  | zero => omega
  | succ m ih =>
    rw [natDigitsGo]
    by_cases h10 : n < 10
    · simp [h10, digitsToNat, digitChar_toNat h10]
    · rw [if_neg h10, digitsToNat_append]
      have hdiv : n / 10 < m := by omega
      rw [ih hdiv, digitChar_toNat (Nat.mod_lt n (by omega))]
      omega

/-- Decimal rendering of naturals is injective. -/
theorem natDigits_inj {a b : Nat} (h : natDigits a = natDigits b) : a = b := by
  have ha := digitsToNat_go (show a < a + 1 by omega)
  have hb := digitsToNat_go (show b < b + 1 by omega)
  calc a = digitsToNat (natDigitsGo (a + 1) a) := ha.symm
    _ = digitsToNat (natDigits a) := rfl
    _ = digitsToNat (natDigits b) := by rw [h]
    _ = digitsToNat (natDigitsGo (b + 1) b) := rfl
    _ = b := hb

/-- Distinct counters give distinct placeholder tokens. -/
theorem mkPlaceholder_inj {a b : Nat} (h : mkPlaceholder a = mkPlaceholder b) : a = b := by
  apply natDigits_inj
  unfold mkPlaceholder at h
  rw [List.append_assoc, List.append_assoc] at h
  have h2 := List.append_cancel_left h
  exact List.append_cancel_right h2

/-- The collection fold, from any starting context: the counter advances
by the number of events and the expected prompts are appended in
evaluation order; `generated` and `vars` are untouched. -/
theorem collectPhase_eq (events : List GenEvent) :
    ∀ ctx0 : RenderContext,
      List.foldlM
        (fun ctx e =>
          (gen_function (some ctx) e.prompt e.max_tokens e.temperature e.stop
            e.source_id).map Prod.snd)
        ctx0 events =
      .ok { ctx0 with
            counter := ctx0.counter + events.length,
            prompts := ctx0.prompts ++ expectedPrompts ctx0.vars ctx0.counter events } := by
  induction events with
  | nil =>
    intro ctx0
    simp [expectedPrompts, pure, Except.pure]
  | cons e es ih =>
    intro ctx0
    rw [List.foldlM_cons]
    have hstep : (gen_function (some ctx0) e.prompt e.max_tokens e.temperature e.stop
        e.source_id).map Prod.snd =
        .ok { ctx0 with
              counter := ctx0.counter + 1,
              prompts := ctx0.prompts ++ [expectedPrompt ctx0.vars ctx0.counter e] } := by
      simp [gen_function, get_current_context, RenderContext.collect_prompt,
        expectedPrompt]
      cases pyFormat e.prompt ctx0.vars <;> rfl
    rw [hstep]
    show List.foldlM _ _ es = _
    rw [ih]
    simp [expectedPrompts]
    omega

/-- The collection phase never fails and produces exactly the expected
prompts, numbered from zero. -/
theorem collectPhase_ok (vs : List (Str × Str)) (events : List GenEvent) :
    collectPhase vs events =
      .ok { counter := events.length, prompts := expectedPrompts vs 0 events,
            generated := [], vars := vs } := by
  have := collectPhase_eq events { vars := vs }
  simpa [collectPhase] using this

/-- One collected prompt per fired call site. -/
theorem expectedPrompts_length (vs : List (Str × Str)) (c : Nat) (events : List GenEvent) :
    (expectedPrompts vs c events).length = events.length := by
  induction events generalizing c with
  | nil => rfl
  | cons e es ih => simp [expectedPrompts, ih]

/-- Every collected prompt's placeholder carries a counter at or above
the starting counter. -/
theorem expectedPrompts_placeholder_mem (vs : List (Str × Str)) (events : List GenEvent) :
    ∀ c p, p ∈ expectedPrompts vs c events → ∃ i, p.placeholder = mkPlaceholder (c + i) := by
  induction events with
  | nil =>
    intro c p hp
    simp [expectedPrompts] at hp
  | cons e es ih =>
    intro c p hp
    rw [expectedPrompts] at hp
    rcases List.mem_cons.mp hp with h | h
    · exact ⟨0, by simp [h, expectedPrompt]⟩
    · obtain ⟨i, hi⟩ := ih (c + 1) p h
      refine ⟨i + 1, ?_⟩
      rw [hi]
      congr 1
      omega

/-- Collected placeholders are pairwise distinct. -/
theorem expectedPrompts_nodup (vs : List (Str × Str)) (events : List GenEvent) :
    ∀ c, ((expectedPrompts vs c events).map (fun p => p.placeholder)).Nodup := by
  induction events with
  | nil =>
    intro c
    simp [expectedPrompts]
  | cons e es ih =>
    intro c
    rw [expectedPrompts]
    simp only [List.map_cons, List.nodup_cons]
    refine ⟨?_, ih (c + 1)⟩
    intro hmem
    obtain ⟨p, hp, hph⟩ := List.mem_map.mp hmem
    obtain ⟨i, hi⟩ := expectedPrompts_placeholder_mem vs es (c + 1) p hp
    simp only [expectedPrompt] at hph
    rw [hi] at hph
    have := mkPlaceholder_inj hph.symm
    omega

/-- Storing the generated texts touches only the `generated` dict, which
accumulates the placeholder/text pairs. -/
theorem foldl_set_generated (zs : List (CollectedPrompt × GenerationResponse)) :
    ∀ ctx : RenderContext,
      (zs.foldl (fun c pr => c.set_generated pr.1.placeholder pr.2.text) ctx) =
        { ctx with generated :=
            (zs.map (fun pr => (pr.1.placeholder, pr.2.text))).reverse ++ ctx.generated } := by
  induction zs with
  | nil =>
    intro ctx
    simp
  | cons z zs ih =>
    intro ctx
    rw [List.foldl_cons, ih]
    simp [RenderContext.set_generated]

/-- In an association list with distinct keys, `find?` returns the unique
entry of a present key. -/
theorem find_assoc_nodup {l : List (Str × Str)} (hnd : (l.map Prod.fst).Nodup) {k v : Str}
    (hm : (k, v) ∈ l) : l.find? (fun q => q.1 = k) = some (k, v) := by
  induction l with
  | nil => simp at hm
  | cons a rest ih =>
    simp only [List.map_cons, List.nodup_cons] at hnd
    rcases List.mem_cons.mp hm with h | h
    · rw [← h]
      simp [List.find?]
    · have hk : ¬ (a.1 = k) := by
        intro he
        exact hnd.1 (he ▸ List.mem_map.mpr ⟨(k, v), h, rfl⟩)
      rw [List.find?]
      simp only [hk, decide_eq_false, Bool.false_eq_true]
      exact ih hnd.2 h

/-- After generation, looking up any collected prompt's placeholder
yields exactly its positionally paired response text. -/
theorem get_generated_zip (prompts : List CollectedPrompt)
    (responses : List GenerationResponse) (ctx : RenderContext)
    (hnd : (prompts.map (fun p => p.placeholder)).Nodup)
    (hlen : prompts.length ≤ responses.length)
    (hgen : ctx.generated = []) :
    ∀ pr ∈ prompts.zip responses,
      ((prompts.zip responses).foldl
        (fun c q => c.set_generated q.1.placeholder q.2.text) ctx).get_generated
        pr.1.placeholder = .ok pr.2.text := by
  intro pr hmem
  rw [foldl_set_generated]
  rcases pr with ⟨p, r⟩
  have hkeys :
      ((((prompts.zip responses).map
        (fun q => (q.1.placeholder, q.2.text))).reverse).map Prod.fst).Nodup := by
    rw [List.map_reverse, List.nodup_reverse, List.map_map]
    have : (Prod.fst ∘ fun q : CollectedPrompt × GenerationResponse =>
        (q.1.placeholder, q.2.text)) =
        (fun p : CollectedPrompt => p.placeholder) ∘ Prod.fst := rfl
    rw [this, ← List.map_map, List.map_fst_zip _ _ hlen]
    exact hnd
  have hmem2 : (p.placeholder, r.text) ∈
      (((prompts.zip responses).map
        (fun q => (q.1.placeholder, q.2.text))).reverse) := by
    rw [List.mem_reverse]
    exact List.mem_map.mpr ⟨(p, r), hmem, rfl⟩
  have hfind := find_assoc_nodup hkeys hmem2
  simp only [RenderContext.get_generated, hgen, List.append_nil, hfind]

/-- The interpolation loop over positionally paired prompts and
responses replaces each placeholder with its pair's filtered text. -/
theorem interpolateLoop_zip (t : Template) (ctx2 : RenderContext)
    (filtered : CollectedPrompt × GenerationResponse → Str) :
    ∀ (zs : List (CollectedPrompt × GenerationResponse)) (acc : Str),
      (∀ pr ∈ zs, ctx2.get_generated pr.1.placeholder = .ok pr.2.text) →
      (∀ pr ∈ zs, applyFilterChain (resolveChain t pr.1.source_id) pr.2.text =
        .ok (filtered pr)) →
      interpolateLoop t ctx2 (zs.map Prod.fst) acc =
        .ok (zs.foldl (fun a pr => pyReplace a pr.1.placeholder (filtered pr)) acc) := by
  intro zs
  induction zs with
  | nil =>
    intro acc _ _
    rfl
  | cons z zs ih =>
    intro acc h1 h2
    simp only [List.map_cons, interpolateLoop,
      h1 z (List.mem_cons_self z zs), h2 z (List.mem_cons_self z zs), List.foldl_cons]
    exact ih _ (fun pr hpr => h1 pr (List.mem_cons_of_mem z hpr))
      (fun pr hpr => h2 pr (List.mem_cons_of_mem z hpr))


/-- C1: for a render in which N ≥ 1 call sites fire, exactly one backend
batch call is made, carrying the N collected prompts' requests in
collection (evaluation) order; response `i` is paired with collected
prompt `i` (the fold runs over `prompts.zip responses`); and the output
is the phase-1 text with each prompt's placeholder replaced by its paired
response's text run through that prompt's resolved filter chain. -/
theorem claim_C1_render_single_batch (t : Template)
    (backend : List GenerationRequest → Except PyErr (List GenerationResponse))
    (vs : List (Str × Str)) (first_pass : Str) (events : List GenEvent)
    (hne : events ≠ [])
    (responses : List GenerationResponse)
    (hb : backend ((expectedPrompts vs 0 events).map CollectedPrompt.to_request) =
      .ok responses)
    (hlen : responses.length = events.length)
    (filtered : CollectedPrompt × GenerationResponse → Str)
    (hfilt : ∀ pr ∈ (expectedPrompts vs 0 events).zip responses,
      applyFilterChain (resolveChain t pr.1.source_id) pr.2.text = .ok (filtered pr)) :
    t.render backend vs first_pass events =
      (.ok (((expectedPrompts vs 0 events).zip responses).foldl
          (fun acc pr => pyReplace acc pr.1.placeholder (filtered pr)) first_pass),
       [.batch ((expectedPrompts vs 0 events).map CollectedPrompt.to_request)])
    ∧ ((expectedPrompts vs 0 events).map CollectedPrompt.to_request).length =
        events.length := by
  have hplen : (expectedPrompts vs 0 events).length = events.length :=
    expectedPrompts_length vs 0 events
  have hle : (expectedPrompts vs 0 events).length ≤ responses.length := by omega
  have hne2 : expectedPrompts vs 0 events ≠ [] := by
    cases events with
    | nil => exact absurd rfl hne
    | cons e es => simp [expectedPrompts]
  refine ⟨?_, by simp [hplen]⟩
  unfold Template.render
  rw [collectPhase_ok vs events]
  unfold Template.renderPhases
  simp only [List.isEmpty_eq_true, hne2, if_false, hb]
  refine Prod.ext ?_ rfl
  show Template.interpolate t first_pass _ = _
  unfold Template.interpolate
  rw [foldl_set_generated]
  simp only []
  have h1 := get_generated_zip (expectedPrompts vs 0 events) responses
    { counter := events.length, prompts := expectedPrompts vs 0 events,
      generated := [], vars := vs }
    (expectedPrompts_nodup vs events 0) hle rfl
  have h1' : ∀ pr ∈ (expectedPrompts vs 0 events).zip responses,
      RenderContext.get_generated
        { counter := events.length, prompts := expectedPrompts vs 0 events,
          generated := (((expectedPrompts vs 0 events).zip responses).map
            (fun pr => (pr.1.placeholder, pr.2.text))).reverse ++ [],
          vars := vs } pr.1.placeholder = .ok pr.2.text := by
    intro pr hpr
    have := h1 pr hpr
    rw [foldl_set_generated] at this
    exact this
  have hmain := interpolateLoop_zip t
    { counter := events.length, prompts := expectedPrompts vs 0 events,
      generated := (((expectedPrompts vs 0 events).zip responses).map
        (fun pr => (pr.1.placeholder, pr.2.text))).reverse ++ [],
      vars := vs }
    filtered ((expectedPrompts vs 0 events).zip responses) first_pass h1' hfilt
  rw [List.map_fst_zip _ _ hle] at hmain
  exact hmain


/-- Witness for C1: one call site, an echo backend, an `upper` chain. -/
theorem claim_C1_render_single_batch_witness :
    (⟨[(0, [lit "upper"])], none⟩ : Template).render
        (fun reqs => .ok (reqs.map (fun _ => ⟨lit "ab", none⟩)))
        [] (lit "x") [{ prompt := lit "p", source_id := some 0 }] =
      (.ok (((expectedPrompts [] 0 [{ prompt := lit "p", source_id := some 0 }]).zip
          [(⟨lit "ab", none⟩ : GenerationResponse)]).foldl
          (fun acc pr => pyReplace acc pr.1.placeholder (lit "AB")) (lit "x")),
       [.batch ((expectedPrompts [] 0 [{ prompt := lit "p", source_id := some 0 }]).map
          CollectedPrompt.to_request)]) :=
  (claim_C1_render_single_batch ⟨[(0, [lit "upper"])], none⟩
    (fun reqs => .ok (reqs.map (fun _ => ⟨lit "ab", none⟩)))
    [] (lit "x") [{ prompt := lit "p", source_id := some 0 }]
    (by simp)
    [⟨lit "ab", none⟩] rfl rfl
    (fun _ => lit "AB")
    (by
      intro pr hpr
      have hz : (expectedPrompts [] 0 [{ prompt := lit "p", source_id := some 0 }]).zip
          [(⟨lit "ab", none⟩ : GenerationResponse)] =
          [(⟨mkPlaceholder 0, lit "p", some 0, none, none, none⟩,
            (⟨lit "ab", none⟩ : GenerationResponse))] := rfl
      rw [hz] at hpr
      rw [List.mem_singleton.mp hpr]
      rfl)).1


/-- C9 counterexample: after a successful render whose output is not
valid JSON, `render_json` raises `TemplateRenderError` — exactly the
unified render-time failure class, not a distinct one. -/
theorem claim_C9_counterexample :
    ((⟨[], none⟩ : Template).render_json (fun _ => .ok []) [] (lit "oops") []).1 =
      .error ⟨renderErrorClass,
        lit "Template output is not valid JSON: " ++ lit "\nOutput was:\n" ++ lit "oops"⟩ :=
  rfl

/-- C9 amended: `render_json` renders and parses the result as JSON,
returning the parsed value on success; on parse failure it raises the
unified render-time class `TemplateRenderError` with a message embedding
the raw offending rendered text. -/
theorem claim_C9_render_json_amended (t : Template)
    (backend : List GenerationRequest → Except PyErr (List GenerationResponse))
    (vs : List (Str × Str)) (first_pass : Str) (events : List GenEvent)
    (result : Str) (hr : (t.render backend vs first_pass events).1 = .ok result) :
    (∀ v, jsonLoads result = some v →
      (t.render_json backend vs first_pass events).1 = .ok v)
    ∧ (jsonLoads result = none →
      ∃ msg, (t.render_json backend vs first_pass events).1 =
          .error ⟨.TemplateRenderError, msg⟩ ∧ result <:+ msg) := by
  constructor
  · intro v hv
    simp only [Template.render_json, hr, hv]
  · intro hv
    refine ⟨lit "Template output is not valid JSON: " ++ lit "\nOutput was:\n" ++ result,
      ?_, ⟨lit "Template output is not valid JSON: " ++ lit "\nOutput was:\n",
        by rw [List.append_assoc]⟩⟩
    simp only [Template.render_json, hr, hv]

/-- Witness for the amended C9: a render producing `{}` parses to the
empty object. -/
theorem claim_C9_render_json_amended_witness :
    ((⟨[], none⟩ : Template).render_json (fun _ => .ok []) [] (lit "\x7b\x7d") []).1 =
      .ok (.obj []) :=
  (claim_C9_render_json_amended ⟨[], none⟩ (fun _ => .ok []) [] (lit "\x7b\x7d") [] (lit "\x7b\x7d")
    rfl).1 (.obj []) rfl


end Genji
